import Mathlib

/-!
Verification development for the session-tracker hook script
(src/session-tracker/scripts/session-tracker.py).

The script is shallowly embedded: Python values produced by json.loads are
modelled by the inductive type JVal; the process-wide random source is
modelled by externally supplied natural-number indices reduced modulo the
length of the list being chosen from; the HTTP transport is modelled by an
outcome parameter describing what the single request did; uncaught Python
exceptions are modelled by the error side of Except.
-/

/-- Values produced by Python json.loads (and Python None). JSON numbers are
modelled as integers; no claim in this development depends on non-integral
numbers. -/
inductive JVal where
  | null : JVal
  | bool : Bool → JVal
  | num : Int → JVal
  | str : String → JVal
  | arr : List JVal → JVal
  | obj : List (String × JVal) → JVal

/-- Python truthiness for the values of JVal: None, False, 0, empty string,
empty list and empty dict are falsy, everything else truthy. -/
def truthy : JVal → Bool
  | .null => false
  | .bool b => b
  | .num n => n != 0
  | .str s => s != ""
  | .arr xs => !xs.isEmpty
  | .obj kvs => !kvs.isEmpty

mutual

/-- Python repr of a JVal, as used by str() on non-string values. String
escaping inside repr is not modelled (keys and values in this development
contain no quote characters); containers print as in CPython. -/
def pyRepr : JVal → String
  | .null => "None"
  | .bool true => "True"
  | .bool false => "False"
  | .num n => toString n
  | .str s => "\x27" ++ s ++ "\x27"
  | .arr xs => "[" ++ pyReprArr xs ++ "]"
  | .obj kvs => "\x7b" ++ pyReprObj kvs ++ "\x7d"

/-- Comma-separated reprs of the elements of a Python list. -/
def pyReprArr : List JVal → String
  | [] => ""
  | [x] => pyRepr x
  | x :: xs => pyRepr x ++ ", " ++ pyReprArr xs

/-- Comma-separated reprs of the entries of a Python dict. -/
def pyReprObj : List (String × JVal) → String
  | [] => ""
  | [kv] => "\x27" ++ kv.1 ++ "\x27: " ++ pyRepr kv.2
  | kv :: kvs => "\x27" ++ kv.1 ++ "\x27: " ++ pyRepr kv.2 ++ ", " ++ pyReprObj kvs

end

/-- Python str() of a JVal, as used by f-string interpolation. -/
def pyStr : JVal → String
  | .str s => s
  | v => pyRepr v

/-- Lookup in a Python dict built by json.loads from an association list of
key-value pairs: on duplicate keys the last occurrence wins, as in CPython. -/
def dictFind (kvs : List (String × JVal)) (key : String) : Option JVal :=
  kvs.foldl (fun acc kv => if kv.1 == key then some kv.2 else acc) none

/-- Python dict.get with a default: the stored value when the key is present
(even when that value is None), the default otherwise. -/
def dictGetD (kvs : List (String × JVal)) (key : String) (dflt : JVal) : JVal :=
  (dictFind kvs key).getD dflt

/-- Python equality test of a JVal against a string literal, as used by the
membership test on a tuple of string literals: only an equal str compares
equal. -/
def pyEqStr (v : JVal) (s : String) : Bool :=
  match v with
  | .str t => t == s
  | _ => false

/-- FIRST_NAMES list of session-tracker.py (lines 26-88), in source order. -/
def FIRST_NAMES : List String :=
  ["Gandalf", "Merlin", "Scott", "Trevor", "Kevin", "Barry", "Nigel",
   "Reginald", "Bartholomew", "Cornelius", "Thaddeus", "Mortimer",
   "Mrs. Willoughby", "Father Paul Devonly", "Dr. Spaceman",
   "Sergeant Pickles", "Professor Snugglebottom", "Captain Whiskers",
   "Dame Judith", "Sir Reginald", "Bishop Flanagan", "Reverend Chaos",
   "Admiral Biscuits", "Colonel Mustard",
   "Snookums", "Pudding", "Muffin", "Waffles", "Sprocket", "Gizmo",
   "Pebbles", "Mr. Fluffington", "Princess Thunderpaws", "Lord Wigglebottom",
   "Tiny Steve",
   "The Dread Lord Abaddon", "Xarthok the Defiler", "The Unnamed One",
   "Entropy Prime", "The Void Walker", "Chaos Incarnate", "The Final Arbiter",
   "Chad from Marketing", "Brenda in HR", "The Scrum Master",
   "That Guy from IT", "Regional Manager Dwight",
   "Senior Vice President Jenkins", "Intern #47",
   "A Swarm of Bees", "Three Raccoons in a Trenchcoat",
   "The Concept of Thursday", "The Stepmother You Never Wanted",
   "An Increasingly Nervous Flamingo", "Greg"]

/-- SECOND_PARTS dict of session-tracker.py (lines 92-173): entries map a
joining separator to its list of suffixes, in source (insertion) order.
CPython dicts preserve insertion order, so an association list is a faithful
model. The third separator is the literal three-character mojibake sequence
present in the source file. -/
def SECOND_PARTS : List (String × List String) :=
  [(" ",
    ["the Magnificent", "the Terrible", "the Unready", "the Adequate",
     "the All-Knowing", "the Mostly-Knowing", "the Occasionally Correct",
     "the Destroyer of Worlds", "the Filer of Taxes", "the Sender of Emails",
     "the Inevitable", "the Procrastinator", "the Early-to-Bed",
     "the Devourer", "the Snack-Sized", "the Family-Sized", "the Recursive",
     "the Deprecated", "the Legacy Code"]),
   (", ",
    ["Attorney at Law", "CPA", "PhD", "Esq.", "MD", "Earl of Croix",
     "Duke of URL", "Baron of the Spreadsheet", "Viscount of the Third Floor",
     "Lord of the Ping", "Count of Monte Crisco", "Regional Manager",
     "Associate Vice President", "Junior Senior Developer",
     "Defender of the Realm", "Keeper of the Sacred Changelog",
     "who is running late", "who forgot to mute", "who meant to reply-all",
     "who\x27s not angry, just disappointed"]),
   ("\xE2€”",
    ["Sexiest Person, 1998-99 (Elevator World Magazine)",
     "Winner, Most Consistent (Participation Magazine)",
     "As Seen on TV\x27s Matlock", "Now With 20% More Existential Dread!",
     "Terms and Conditions Apply",
     "Voted \x27Most Likely to Defecate Standing\x27", "Certified Pre-Owned",
     "Some Assembly Required", "Batteries Not Included",
     "Your Mileage May Vary", "Not Valid in Quebec",
     "Please Consult Your Doctor", "Your Childhood Imaginary Friend",
     "Who\x27s not my real mum"]),
   (" of the ",
    ["Flesh Cathedral", "Screaming Void", "Infinite Spreadsheet",
     "Forbidden Repository", "Haunted Codebase", "Eternal Standup",
     "Third-Floor Breakroom", "Unclosed Parenthesis", "Merge Conflict",
     "Sacred Timeline", "Forbidden Snack Drawer", "Lost Documentation",
     "Thousand Jira Tickets", "Unanswered Slack Messages", "Pending PRs"])]

/-- generate_random_name (lines 179-188). Each random.choice over a list is
modelled by an externally supplied index reduced modulo the length of that
list (every list element is reachable, and the lists are non-empty so the
getD default is never used). Choosing a separator from the dict keys and then
indexing the dict is modelled by one choice of an entry of the association
list, which is equivalent because the keys are distinct. Returns the
(first_part, full_name) pair with full_name = first + separator + second. -/
def generate_random_name (i j k : Nat) : String × String :=
  let first := FIRST_NAMES.getD (i % FIRST_NAMES.length) ""
  let part := SECOND_PARTS.getD (j % SECOND_PARTS.length) ("", [])
  let separator := part.1
  let second := part.2.getD (k % part.2.length) ""
  (first, first ++ separator ++ second)

/-- Uncaught Python exceptions that the script can raise. An uncaught
exception aborts the process with a traceback, a non-zero exit status and
nothing printed on standard output. -/
inductive PyErr where
  | jsonDecodeError : PyErr
  | attributeError : PyErr
  | typeError : PyErr
deriving DecidableEq

/-- Outcome of the one GET request issued by get_session_from_api.
ok status body: urlopen returned a response (urllib raises HTTPError for
status codes 400 and above, so a returned response has a non-error status)
whose status is given, with body the value parsed by json.loads, or none
when the body is not decodable as JSON (json.loads raises).
httpError code: urlopen raised HTTPError with the given status code.
netError: urlopen raised URLError, TimeoutError or OSError (connection
failure, timeout, read failure). -/
inductive FindOutcome where
  | ok : Nat → Option JVal → FindOutcome
  | httpError : Nat → FindOutcome
  | netError : FindOutcome

/-- Outcome of the one POST request issued by create_session_via_api:
either urlopen returned a response with the given status, or it raised one
of URLError, HTTPError, TimeoutError, OSError. -/
inductive CreateOutcome where
  | ok : Nat → CreateOutcome
  | err : CreateOutcome
deriving DecidableEq

/-- get_session_from_api (lines 191-209), as a function of the transport
outcome; the request URL is determined by the session id and does not affect
the control flow modelled here. A 200 response returns the decoded body; a
200 response with an undecodable body raises json.JSONDecodeError, which is
not among the caught exception classes (HTTPError, URLError, TimeoutError,
OSError) and therefore propagates to the caller. A non-200 response, any
HTTPError (404 included) and any network error return None. -/
def get_session_from_api : FindOutcome → Except PyErr (Option JVal)
  | .ok status body =>
      if status = 200 then
        match body with
        | some j => .ok (some j)
        | none => .error .jsonDecodeError
      else .ok none
  | .httpError _ => .ok none
  | .netError => .ok none

/-- create_session_via_api (lines 212-235), as a function of the transport
outcome; the request payload (session id, cwd, transcript path, nickname,
hidden=False) is sent on the wire and does not affect the returned value.
Returns true exactly when urlopen returned a response whose status is 200 or
201; every raised transport exception is caught and yields false. -/
def create_session_via_api : CreateOutcome → Bool
  | .ok status => status == 200 || status == 201
  | .err => false

/-- Result of get_or_create_session, together with the observable effects of
the call: whether generate_random_name was invoked, the nickname argument of
the create_session_via_api call when one was issued, and the (discarded)
boolean that call returned. -/
structure GOCResult where
  nickname : JVal
  full_name : String
  generator_invoked : Bool
  create_call : Option String
  create_result : Option Bool

/-- get_or_create_session (lines 238-265). The session id, cwd and
transcript path only flow into the transport payloads, which are abstracted
into the two outcome parameters. A truthy session dict with a truthy
nickname returns the stored nickname; a truthy session dict with a falsy or
missing nickname generates a fresh name without any create call; a falsy or
absent session generates a fresh name and issues one create call with the
first part as nickname, ignoring its result. A truthy non-dict response
raises AttributeError at session.get; an error raised by
get_session_from_api propagates. -/
def get_or_create_session (findR : FindOutcome) (createR : CreateOutcome)
    (i j k : Nat) : Except PyErr GOCResult :=
  match get_session_from_api findR with
  | .error e => .error e
  | .ok sessionOpt =>
    let session := sessionOpt.getD JVal.null
    if truthy session then
      match session with
      | .obj kvs =>
        let nickname := dictGetD kvs "nickname" JVal.null
        if truthy nickname then
          .ok ⟨nickname, pyStr nickname ++ " (resumed)", false, none, none⟩
        else
          let g := generate_random_name i j k
          .ok ⟨.str g.1, g.2, true, none, none⟩
      | _ => .error .attributeError
    else
      let g := generate_random_name i j k
      let created := create_session_via_api createR
      .ok ⟨.str g.1, g.2, true, some g.1, some created⟩

/-- Reading of standard input by main (lines 269-280), after the fact:
either stdin is an interactive terminal (isatty), or its content is empty,
or json.loads raised (malformed JSON), or json.loads produced a value. -/
inductive StdinRead where
  | atty : StdinRead
  | empty : StdinRead
  | malformed : StdinRead
  | json : JVal → StdinRead

/-- Flat session record built by main (lines 300-309) for the local files.
The timestamp field holds datetime.now().isoformat(), supplied as a
parameter. -/
structure SessionRecord where
  session_id : JVal
  session_name : String
  nickname : JVal
  transcript_path : JVal
  cwd : JVal
  source : JVal
  timestamp : String
  project_dir : JVal

/-- Observable outcome of a completed run of main. stdout holds the single
JSON object printed, if any. log_append holds the record appended to
.claude/sessions.jsonl (serialized by json.dumps on one line, parent
directories created first) when that write succeeded, none when it failed or
was not reached; latest_write likewise holds the record written (overwrite,
pretty-printed with indent 2) to .claude/current-session.json. -/
structure MainResult where
  exitCode : Nat
  stdout : Option JVal
  log_append : Option SessionRecord
  latest_write : Option SessionRecord

/-- Python "\n".join. -/
def joinLines : List String → String
  | [] => ""
  | [x] => x
  | x :: xs => x ++ "\n" ++ joinLines xs

/-- context_lines built by main (lines 331-339): four f-string lines, with
the first replaced when the source equals "resume" or "compact". -/
def context_lines (full_name : String) (nickname : JVal)
    (session_id project_dir transcript_path source : JVal) : List String :=
  let line0 :=
    if pyEqStr source "resume" || pyEqStr source "compact" then
      "Session: " ++ pyStr nickname ++ " (resumed from " ++ pyStr source ++ ")"
    else
      "Session: " ++ full_name
  [line0,
   "Session ID: " ++ pyStr session_id,
   "Project: " ++ pyStr project_dir,
   "Transcript: " ++ pyStr transcript_path]

/-- Output object printed by main (lines 341-348). -/
def hookOutput (ctx : String) : JVal :=
  .obj [("hookSpecificOutput",
         .obj [("hookEventName", .str "SessionStart"),
               ("additionalContext", .str ctx)])]

/-- Resolution of project_dir by main (line 299): the value of the
CLAUDE_PROJECT_DIR environment variable when set, the cwd value otherwise
(os.environ.get with a default). -/
def resolve_project_dir (envProjectDir : Option String) (cwd : JVal) : JVal :=
  match envProjectDir with
  | some p => .str p
  | none => cwd

/-- main (lines 268-349) as a function of: what reading stdin produced, the
value of os.getcwd(), the CLAUDE_PROJECT_DIR environment variable, the
transport outcomes of the find and create requests, the three random choices
of generate_random_name, the timestamp, and whether each of the two local
file writes succeeds (their OSError and IOError failures are caught and
ignored). An interactive terminal, empty input, malformed JSON input and a
falsy session_id all exit silently with status 0. A non-dict json.loads
value raises AttributeError at input_data.get. A non-string project_dir
(possible when CLAUDE_PROJECT_DIR is unset and the input supplies a
non-string cwd) raises TypeError at Path(project_dir), which sits outside
any try block. The error side of Except models such an uncaught exception:
traceback, non-zero exit status, no stdout. -/
def script_main (stdin : StdinRead) (osCwd : String) (envProjectDir : Option String)
    (findR : FindOutcome) (createR : CreateOutcome) (i j k : Nat)
    (now : String) (logWriteOk latestWriteOk : Bool) :
    Except PyErr MainResult :=
  match stdin with
  | .atty => .ok ⟨0, none, none, none⟩
  | .empty => .ok ⟨0, none, none, none⟩
  | .malformed => .ok ⟨0, none, none, none⟩
  | .json input_data =>
    match input_data with
    | .obj kvs =>
      let session_id := dictGetD kvs "session_id" (.str "")
      if !truthy session_id then .ok ⟨0, none, none, none⟩
      else
        let transcript_path := dictGetD kvs "transcript_path" (.str "")
        let cwd := dictGetD kvs "cwd" (.str osCwd)
        let source := dictGetD kvs "source" (.str "unknown")
        match get_or_create_session findR createR i j k with
        | .error e => .error e
        | .ok r =>
          let project_dir : JVal := resolve_project_dir envProjectDir cwd
          let record : SessionRecord :=
            ⟨session_id, r.full_name, r.nickname, transcript_path, cwd,
             source, now, project_dir⟩
          match project_dir with
          | .str _ =>
            let logW := if logWriteOk then some record else none
            let latestW := if latestWriteOk then some record else none
            let ctx := joinLines (context_lines r.full_name r.nickname
              session_id project_dir transcript_path source)
            .ok ⟨0, some (hookOutput ctx), logW, latestW⟩
          | _ => .error .typeError
    | _ => .error .attributeError



/-- Helper: modular indexing with a default always lands inside a non-empty
list. -/
theorem getD_mod_mem {α : Type} (xs : List α) (d : α) (i : Nat) (h : xs ≠ []) :
    xs.getD (i % xs.length) d ∈ xs := by
  have hl : i % xs.length < xs.length := Nat.mod_lt _ (List.length_pos.mpr h)
  rw [List.getD_eq_getElem xs d hl]
  exact List.getElem_mem hl

/-- Helper: every suffix list of SECOND_PARTS is non-empty. -/
theorem second_parts_suffixes_ne_nil (j : Nat) :
    (SECOND_PARTS.getD (j % SECOND_PARTS.length) ("", [])).2 ≠ [] := by
  have h4 : j % SECOND_PARTS.length < 4 := Nat.mod_lt _ (by decide)
  obtain h | h | h | h : j % SECOND_PARTS.length = 0 ∨ j % SECOND_PARTS.length = 1 ∨
      j % SECOND_PARTS.length = 2 ∨ j % SECOND_PARTS.length = 3 := by omega
  all_goals rw [h]
  all_goals decide

/-- C6: every invocation of the name generator returns a pair (first,
full_name) with first an element of the fixed first-name list and full_name
equal to first, followed by one of the four fixed separators, followed by an
element of the suffix group associated with that separator; the generator is
a total function of its three random choices, with no input and no failure
mode. -/
theorem C6_generator_shape (i j k : Nat) :
    (generate_random_name i j k).1 ∈ FIRST_NAMES ∧
    ∃ p ∈ SECOND_PARTS, ∃ s ∈ p.2,
      (generate_random_name i j k).2 = (generate_random_name i j k).1 ++ p.1 ++ s := by
  refine ⟨getD_mod_mem _ _ _ (by decide), ?_⟩
  refine ⟨SECOND_PARTS.getD (j % SECOND_PARTS.length) ("", []),
          getD_mod_mem _ _ _ (by decide), ?_⟩
  refine ⟨(SECOND_PARTS.getD (j % SECOND_PARTS.length) ("", [])).2.getD
            (k % (SECOND_PARTS.getD (j % SECOND_PARTS.length) ("", [])).2.length) "",
          getD_mod_mem _ _ _ (second_parts_suffixes_ne_nil j), ?_⟩
  rfl

/-- C1: the find operation treats 404, other HTTP error statuses, non-200
success statuses and network errors as absent, but a 200 response whose body
is not decodable as JSON raises json.JSONDecodeError (a ValueError, absent
from the caught exception classes), which propagates through
get_or_create_session; the claim that an undecodable response body is
treated as absent and never raises is violated by the code. -/
theorem C1_find_decode_error_raises :
    get_session_from_api (FindOutcome.ok 200 none) = .error PyErr.jsonDecodeError ∧
    get_or_create_session (FindOutcome.ok 200 none) CreateOutcome.err 0 0 0 =
      .error PyErr.jsonDecodeError ∧
    get_session_from_api (FindOutcome.httpError 404) = .ok none ∧
    get_session_from_api (FindOutcome.httpError 500) = .ok none ∧
    get_session_from_api FindOutcome.netError = .ok none :=
  ⟨rfl, rfl, rfl, rfl, rfl⟩

/-- C2: whenever find reports absent (404, other HTTP errors, network
errors, timeouts, unreachable backend), get_or_create_session invokes the
generator, issues exactly one create call whose nickname argument is the
generated first part, ignores that call, and returns the generated pair no
matter how the create call turned out. -/
theorem C2_absent_creates_and_returns_fresh
    (findR : FindOutcome) (createR : CreateOutcome) (i j k : Nat)
    (habsent : get_session_from_api findR = .ok none) :
    get_or_create_session findR createR i j k =
      .ok ⟨.str (generate_random_name i j k).1, (generate_random_name i j k).2,
           true, some (generate_random_name i j k).1,
           some (create_session_via_api createR)⟩ := by
  unfold get_or_create_session
  rw [habsent]
  rfl

/-- Witness for C2 at a concrete input: backend entirely unreachable and the
create call failing. -/
theorem C2_witness :
    get_or_create_session FindOutcome.netError CreateOutcome.err 0 0 0 =
      .ok ⟨JVal.str "Gandalf", "Gandalf the Magnificent", true, some "Gandalf",
           some false⟩ :=
  C2_absent_creates_and_returns_fresh FindOutcome.netError CreateOutcome.err 0 0 0 rfl

/-- C5 counterexample: a POST answered with status 204 is a 2xx status, yet
create_session_via_api reports failure, because the code tests membership in
(200, 201) rather than the whole 2xx range. -/
theorem C5_counterexample :
    create_session_via_api (CreateOutcome.ok 204) = false ∧ 200 ≤ 204 ∧ 204 < 300 :=
  ⟨rfl, by omega, by omega⟩

/-- C5 (amended): the create operation reports success exactly when the POST
yields status 200 or 201; every other delivered status and every raised
transport error yields failure, with no retry; and the outcome of the create
call is swallowed: everything get_or_create_session returns apart from the
discarded boolean is independent of the create outcome, so the caller
proceeds regardless. -/
theorem C5_success_iff_status_200_or_201 :
    (∀ o : CreateOutcome,
      create_session_via_api o = true ↔ o = .ok 200 ∨ o = .ok 201) ∧
    (∀ (findR : FindOutcome) (c c2 : CreateOutcome) (i j k : Nat),
      (get_or_create_session findR c i j k).map
          (fun r => (r.nickname, r.full_name, r.generator_invoked, r.create_call)) =
      (get_or_create_session findR c2 i j k).map
          (fun r => (r.nickname, r.full_name, r.generator_invoked, r.create_call))) := by
  constructor
  · intro o
    cases o with
    | ok s =>
      simp only [create_session_via_api, Bool.or_eq_true, beq_iff_eq,
        CreateOutcome.ok.injEq]
    | err => simp [create_session_via_api]
  · intro findR c c2 i j k
    unfold get_or_create_session
    cases hf : get_session_from_api findR with
    | error e => rfl
    | ok so =>
      cases so with
      | none => rfl
      | some v =>
        simp only [Option.getD_some]
        cases htv : truthy v
        · rfl
        · rfl

/-- C10 counterexample: when find returns an entirely empty record (an empty
dict is falsy in Python), get_or_create_session takes the not-found branch
and does issue a create call, contradicting the claim that a record with a
missing nickname leads to generate-without-store. -/
theorem C10_counterexample :
    get_or_create_session (FindOutcome.ok 200 (some (JVal.obj [])))
        (CreateOutcome.ok 201) 0 0 0 =
      .ok ⟨JVal.str "Gandalf", "Gandalf the Magnificent", true, some "Gandalf",
           some true⟩ ∧
    (some "Gandalf" : Option String) ≠ none :=
  ⟨rfl, by decide⟩

/-- C10 (amended): when find returns a non-empty record whose nickname field
is missing or falsy (for example the empty string), get_or_create_session
returns a freshly generated name, invokes the generator, and issues no
create call, so the store is not written on this path and every invocation
for that session id repeats the same generate-without-store computation on
fresh random choices; an entirely empty record, being falsy, is instead
treated as not found and a create call is issued. -/
theorem C10_nonempty_record_falsy_nickname_no_create
    (findR : FindOutcome) (createR : CreateOutcome) (i j k : Nat)
    (kvs : List (String × JVal))
    (hfind : get_session_from_api findR = .ok (some (.obj kvs)))
    (hne : kvs ≠ [])
    (hnick : truthy (dictGetD kvs "nickname" JVal.null) = false) :
    get_or_create_session findR createR i j k =
      .ok ⟨.str (generate_random_name i j k).1, (generate_random_name i j k).2,
           true, none, none⟩ := by
  unfold get_or_create_session
  rw [hfind]
  have htr : truthy (JVal.obj kvs) = true := by
    simp [truthy, List.isEmpty_eq_false, hne]
  simp only [Option.getD_some, htr, hnick, if_true, Bool.false_eq_true, if_false]

/-- Witness for C10 (amended) at a concrete input: a stored record whose
nickname is the empty string. -/
theorem C10_witness :
    get_or_create_session
        (FindOutcome.ok 200 (some (JVal.obj [("nickname", JVal.str "")])))
        CreateOutcome.err 1 1 1 =
      .ok ⟨JVal.str "Merlin", "Merlin, CPA", true, none, none⟩ :=
  C10_nonempty_record_falsy_nickname_no_create
    (FindOutcome.ok 200 (some (JVal.obj [("nickname", JVal.str "")])))
    CreateOutcome.err 1 1 1 [("nickname", JVal.str "")] rfl
    (List.cons_ne_nil _ _) rfl

/-- C3: when the stored record holds a non-empty nickname, the resolver
returns that nickname together with the full name formed by appending
" (resumed)", does not invoke the generator and issues no create call; and a
second invocation against the unchanged store (any random choices, any
create-transport outcome) returns exactly the same result, so the stored
nickname is never regenerated or overwritten. -/
theorem C3_stored_nickname_is_stable
    (findR : FindOutcome) (createR createR2 : CreateOutcome)
    (i j k i2 j2 k2 : Nat) (kvs : List (String × JVal)) (s : String)
    (hfind : get_session_from_api findR = .ok (some (.obj kvs)))
    (hnick : dictGetD kvs "nickname" JVal.null = JVal.str s)
    (hs : s ≠ "") :
    get_or_create_session findR createR i j k =
      .ok ⟨JVal.str s, s ++ " (resumed)", false, none, none⟩ ∧
    get_or_create_session findR createR2 i2 j2 k2 =
      get_or_create_session findR createR i j k := by
  have hkvs : kvs ≠ [] := by
    intro h
    subst h
    simp [dictGetD, dictFind] at hnick
  have key : ∀ (c : CreateOutcome) (a b d : Nat),
      get_or_create_session findR c a b d =
        .ok ⟨JVal.str s, s ++ " (resumed)", false, none, none⟩ := by
    intro c a b d
    unfold get_or_create_session
    rw [hfind]
    have htr : truthy (JVal.obj kvs) = true := by
      simp [truthy, List.isEmpty_eq_false, hkvs]
    have hts : truthy (JVal.str s) = true := by simp [truthy, hs]
    simp only [Option.getD_some, htr, hnick, hts, if_true]
    rfl
  exact ⟨key createR i j k, by rw [key, key]⟩

/-- Witness for C3 at a concrete input: a stored nickname "Greg", two
invocations with different random choices and create outcomes. -/
theorem C3_witness :
    get_or_create_session
        (FindOutcome.ok 200 (some (JVal.obj [("nickname", JVal.str "Greg")])))
        CreateOutcome.err 0 0 0 =
      .ok ⟨JVal.str "Greg", "Greg (resumed)", false, none, none⟩ ∧
    get_or_create_session
        (FindOutcome.ok 200 (some (JVal.obj [("nickname", JVal.str "Greg")])))
        (CreateOutcome.ok 201) 5 3 7 =
      get_or_create_session
        (FindOutcome.ok 200 (some (JVal.obj [("nickname", JVal.str "Greg")])))
        CreateOutcome.err 0 0 0 :=
  C3_stored_nickname_is_stable
    (FindOutcome.ok 200 (some (JVal.obj [("nickname", JVal.str "Greg")])))
    CreateOutcome.err (CreateOutcome.ok 201) 0 0 0 5 3 7
    [("nickname", JVal.str "Greg")] "Greg" rfl rfl (by decide)

/-- Helper: shape of a successful run of script_main. With a truthy
session_id, a resolver call that raised nothing and a string project
directory, the run prints the hook output built from context_lines, exits 0,
and each local file write that succeeds carries the one flat session
record. -/
theorem script_main_ok_shape
    (kvs : List (String × JVal)) (osCwd : String) (envProjectDir : Option String)
    (findR : FindOutcome) (createR : CreateOutcome) (i j k : Nat) (now : String)
    (lg lt : Bool) (r : GOCResult) (pd : String)
    (hsid : truthy (dictGetD kvs "session_id" (JVal.str "")) = true)
    (hres : get_or_create_session findR createR i j k = .ok r)
    (hpd : resolve_project_dir envProjectDir (dictGetD kvs "cwd" (JVal.str osCwd)) =
           JVal.str pd) :
    script_main (.json (.obj kvs)) osCwd envProjectDir findR createR i j k now lg lt =
      .ok ⟨0,
           some (hookOutput (joinLines (context_lines r.full_name r.nickname
             (dictGetD kvs "session_id" (JVal.str "")) (JVal.str pd)
             (dictGetD kvs "transcript_path" (JVal.str ""))
             (dictGetD kvs "source" (JVal.str "unknown"))))),
           if lg then
             some ⟨dictGetD kvs "session_id" (JVal.str ""), r.full_name, r.nickname,
                   dictGetD kvs "transcript_path" (JVal.str ""),
                   dictGetD kvs "cwd" (JVal.str osCwd),
                   dictGetD kvs "source" (JVal.str "unknown"), now, JVal.str pd⟩
           else none,
           if lt then
             some ⟨dictGetD kvs "session_id" (JVal.str ""), r.full_name, r.nickname,
                   dictGetD kvs "transcript_path" (JVal.str ""),
                   dictGetD kvs "cwd" (JVal.str osCwd),
                   dictGetD kvs "source" (JVal.str "unknown"), now, JVal.str pd⟩
           else none⟩ := by
  unfold script_main
  dsimp only
  simp only [hsid, Bool.not_true, Bool.false_eq_true, if_false, hres, hpd]

/-- C4 counterexample: at a concrete resumed run the first line of the
emitted context block is "Session: Greg (resumed from resume)", not the
claimed "Greg (resumed from resume)": the replaced first line keeps the
"Session: " prefix. -/
theorem C4_counterexample :
    script_main
        (.json (.obj [("session_id", JVal.str "abc"), ("source", JVal.str "resume")]))
        "/w" none (FindOutcome.ok 200 (some (JVal.obj [("nickname", JVal.str "Greg")])))
        CreateOutcome.err 0 0 0 "T" true true =
      .ok ⟨0,
           some (hookOutput ("Session: Greg (resumed from resume)" ++ "\n" ++
             "Session ID: abc\nProject: /w\nTranscript: ")),
           some ⟨JVal.str "abc", "Greg (resumed)", JVal.str "Greg", JVal.str "",
                 JVal.str "/w", JVal.str "resume", "T", JVal.str "/w"⟩,
           some ⟨JVal.str "abc", "Greg (resumed)", JVal.str "Greg", JVal.str "",
                 JVal.str "/w", JVal.str "resume", "T", JVal.str "/w"⟩⟩ ∧
    "Session: Greg (resumed from resume)" ≠ "Greg (resumed from resume)" :=
  ⟨rfl, by decide⟩

/-- C4 (amended): on the successful path, when the source field equals
"resume" or "compact" the first line of the emitted context block is
"Session: " followed by the nickname followed by " (resumed from " followed
by the source and ")" — the replaced line keeps the same "Session: " prefix
as the normal first line — and for every other source value the first line
is "Session: " followed by the full name. -/
theorem C4_first_line_session_label
    (kvs : List (String × JVal)) (osCwd : String) (envProjectDir : Option String)
    (findR : FindOutcome) (createR : CreateOutcome) (i j k : Nat) (now : String)
    (lg lt : Bool) (r : GOCResult) (pd : String)
    (hsid : truthy (dictGetD kvs "session_id" (JVal.str "")) = true)
    (hres : get_or_create_session findR createR i j k = .ok r)
    (hpd : resolve_project_dir envProjectDir (dictGetD kvs "cwd" (JVal.str osCwd)) =
           JVal.str pd) :
    script_main (.json (.obj kvs)) osCwd envProjectDir findR createR i j k now lg lt =
      .ok ⟨0,
           some (hookOutput (
             (if pyEqStr (dictGetD kvs "source" (JVal.str "unknown")) "resume" ||
                 pyEqStr (dictGetD kvs "source" (JVal.str "unknown")) "compact" then
               "Session: " ++ pyStr r.nickname ++ " (resumed from " ++
                 pyStr (dictGetD kvs "source" (JVal.str "unknown")) ++ ")"
             else
               "Session: " ++ r.full_name) ++ "\n" ++
             joinLines
               ["Session ID: " ++ pyStr (dictGetD kvs "session_id" (JVal.str "")),
                "Project: " ++ pyStr (JVal.str pd),
                "Transcript: " ++ pyStr (dictGetD kvs "transcript_path" (JVal.str ""))])),
           if lg then
             some ⟨dictGetD kvs "session_id" (JVal.str ""), r.full_name, r.nickname,
                   dictGetD kvs "transcript_path" (JVal.str ""),
                   dictGetD kvs "cwd" (JVal.str osCwd),
                   dictGetD kvs "source" (JVal.str "unknown"), now, JVal.str pd⟩
           else none,
           if lt then
             some ⟨dictGetD kvs "session_id" (JVal.str ""), r.full_name, r.nickname,
                   dictGetD kvs "transcript_path" (JVal.str ""),
                   dictGetD kvs "cwd" (JVal.str osCwd),
                   dictGetD kvs "source" (JVal.str "unknown"), now, JVal.str pd⟩
           else none⟩ := by
  rw [script_main_ok_shape kvs osCwd envProjectDir findR createR i j k now lg lt
    r pd hsid hres hpd]
  rfl

/-- Witness for C4 (amended) at a concrete input: source "compact" on a
fresh session, no local writes succeeding. -/
theorem C4_witness :
    script_main
        (.json (.obj [("session_id", JVal.str "xyz"), ("source", JVal.str "compact")]))
        "/c" (some "/p") FindOutcome.netError CreateOutcome.err 0 0 0 "T" false false =
      .ok ⟨0,
           some (hookOutput ("Session: Gandalf (resumed from compact)" ++ "\n" ++
             "Session ID: xyz\nProject: /p\nTranscript: ")),
           none, none⟩ :=
  C4_first_line_session_label
    [("session_id", JVal.str "xyz"), ("source", JVal.str "compact")]
    "/c" (some "/p") FindOutcome.netError CreateOutcome.err 0 0 0 "T" false false
    ⟨JVal.str "Gandalf", "Gandalf the Magnificent", true, some "Gandalf", some false⟩
    "/p" rfl rfl rfl

/-- C7: evaluation of the failing input of the code bug: a valid input (a
JSON object with non-empty session_id) combined with a store find response
of status 200 whose body is not decodable as JSON makes the process raise an
uncaught json.JSONDecodeError — non-zero exit status and no output on
stdout — instead of printing one JSON object and exiting 0 as the claim
requires for every valid input. -/
theorem C7_crash_on_undecodable_store_response :
    script_main (.json (.obj [("session_id", JVal.str "abc")])) "/w" none
      (FindOutcome.ok 200 none) CreateOutcome.err 0 0 0 "T" true true =
      .error PyErr.jsonDecodeError := rfl

/-- C8: an interactive terminal on stdin, empty stdin, malformed JSON on
stdin, and a JSON object whose session_id is missing or empty all exit with
code 0, print nothing on stdout and write no file, whatever the store and
file system would have done. -/
theorem C8_invalid_input_silent_exit
    (osCwd : String) (envProjectDir : Option String) (findR : FindOutcome)
    (createR : CreateOutcome) (i j k : Nat) (now : String) (lg lt : Bool)
    (kvs : List (String × JVal))
    (hsid : dictFind kvs "session_id" = none ∨
            dictFind kvs "session_id" = some (JVal.str "")) :
    script_main .atty osCwd envProjectDir findR createR i j k now lg lt =
      .ok ⟨0, none, none, none⟩ ∧
    script_main .empty osCwd envProjectDir findR createR i j k now lg lt =
      .ok ⟨0, none, none, none⟩ ∧
    script_main .malformed osCwd envProjectDir findR createR i j k now lg lt =
      .ok ⟨0, none, none, none⟩ ∧
    script_main (.json (.obj kvs)) osCwd envProjectDir findR createR i j k now lg lt =
      .ok ⟨0, none, none, none⟩ := by
  refine ⟨rfl, rfl, rfl, ?_⟩
  have h : dictGetD kvs "session_id" (JVal.str "") = JVal.str "" := by
    rcases hsid with h | h <;> simp [dictGetD, h]
  unfold script_main
  dsimp only
  simp [h, truthy]

/-- Witness for C8 at a concrete input: the empty JSON object (session_id
missing) and the three non-JSON stdin cases. -/
theorem C8_witness :
    script_main .atty "/w" none FindOutcome.netError CreateOutcome.err 0 0 0 "T"
      true true = .ok ⟨0, none, none, none⟩ ∧
    script_main .empty "/w" none FindOutcome.netError CreateOutcome.err 0 0 0 "T"
      true true = .ok ⟨0, none, none, none⟩ ∧
    script_main .malformed "/w" none FindOutcome.netError CreateOutcome.err 0 0 0 "T"
      true true = .ok ⟨0, none, none, none⟩ ∧
    script_main (.json (.obj [])) "/w" none FindOutcome.netError CreateOutcome.err
      0 0 0 "T" true true = .ok ⟨0, none, none, none⟩ :=
  C8_invalid_input_silent_exit "/w" none FindOutcome.netError CreateOutcome.err
    0 0 0 "T" true true [] (Or.inl rfl)

/-- C9: on every resolved session the two local file writes receive the same
flat session record — the sessions.jsonl append (one json.dumps line, parent
directories created first) and the current-session.json overwrite (pretty
printed, indent 2) — and a failure of either write only drops that write:
the JSON object emitted on stdout and the exit code are the same for all
four combinations of write success and failure, since the right-hand side
below mentions the success flags only inside the two write fields. -/
theorem C9_file_writes_best_effort
    (kvs : List (String × JVal)) (osCwd : String) (envProjectDir : Option String)
    (findR : FindOutcome) (createR : CreateOutcome) (i j k : Nat) (now : String)
    (lg lt : Bool) (r : GOCResult) (pd : String)
    (hsid : truthy (dictGetD kvs "session_id" (JVal.str "")) = true)
    (hres : get_or_create_session findR createR i j k = .ok r)
    (hpd : resolve_project_dir envProjectDir (dictGetD kvs "cwd" (JVal.str osCwd)) =
           JVal.str pd) :
    script_main (.json (.obj kvs)) osCwd envProjectDir findR createR i j k now lg lt =
      .ok ⟨0,
           some (hookOutput (joinLines (context_lines r.full_name r.nickname
             (dictGetD kvs "session_id" (JVal.str "")) (JVal.str pd)
             (dictGetD kvs "transcript_path" (JVal.str ""))
             (dictGetD kvs "source" (JVal.str "unknown"))))),
           if lg then
             some ⟨dictGetD kvs "session_id" (JVal.str ""), r.full_name, r.nickname,
                   dictGetD kvs "transcript_path" (JVal.str ""),
                   dictGetD kvs "cwd" (JVal.str osCwd),
                   dictGetD kvs "source" (JVal.str "unknown"), now, JVal.str pd⟩
           else none,
           if lt then
             some ⟨dictGetD kvs "session_id" (JVal.str ""), r.full_name, r.nickname,
                   dictGetD kvs "transcript_path" (JVal.str ""),
                   dictGetD kvs "cwd" (JVal.str osCwd),
                   dictGetD kvs "source" (JVal.str "unknown"), now, JVal.str pd⟩
           else none⟩ :=
  script_main_ok_shape kvs osCwd envProjectDir findR createR i j k now lg lt
    r pd hsid hres hpd

/-- Witness for C9 at a concrete input: log append succeeding, latest-file
write failing; the stdout object is the same as with both writes
succeeding. -/
theorem C9_witness :
    script_main
        (.json (.obj [("session_id", JVal.str "s1"), ("transcript_path", JVal.str "/t"),
                      ("cwd", JVal.str "/c"), ("source", JVal.str "startup")]))
        "/o" (some "/p") FindOutcome.netError CreateOutcome.err 2 3 4 "2026-01-01"
        true false =
      .ok ⟨0,
           some (hookOutput ("Session: Scott of the Haunted Codebase" ++ "\n" ++
             "Session ID: s1\nProject: /p\nTranscript: /t")),
           some ⟨JVal.str "s1", "Scott of the Haunted Codebase", JVal.str "Scott",
                 JVal.str "/t", JVal.str "/c", JVal.str "startup", "2026-01-01",
                 JVal.str "/p"⟩,
           none⟩ :=
  C9_file_writes_best_effort
    [("session_id", JVal.str "s1"), ("transcript_path", JVal.str "/t"),
     ("cwd", JVal.str "/c"), ("source", JVal.str "startup")]
    "/o" (some "/p") FindOutcome.netError CreateOutcome.err 2 3 4 "2026-01-01"
    true false
    ⟨JVal.str "Scott", "Scott of the Haunted Codebase", true, some "Scott", some false⟩
    "/p" rfl rfl rfl
